import Mathlib

/-!
Verification of the SQL query validation and result-presentation pipeline of
CodeMaster_Pro, shallowly embedded from
`src/database/sql_engine.py` (`validate_sql_query`) and
`src/gui/sql_tutor.py` (`display_query_results`, `add_result_analysis`).

Strings are modelled as Lean `String` / `List Char`; Python `str.strip`,
`str.upper`, `str.lower`, substring tests and `str.ljust`-style f-string
padding are embedded explicitly below.  The formatter's output is modelled
as the list of text chunks inserted, in order, into the results widget.
-/

/-- Python `str.strip()` from the left: drop leading whitespace characters. -/
def lstripL (s : List Char) : List Char := s.dropWhile Char.isWhitespace

/-- Python `str.rstrip()`: drop trailing whitespace characters. -/
def rstripL (s : List Char) : List Char := (s.reverse.dropWhile Char.isWhitespace).reverse

/-- Python `str.strip()`: drop leading and trailing whitespace characters. -/
def stripL (s : List Char) : List Char := rstripL (lstripL s)

/-- Python `str.upper()` restricted to the ASCII range used by the SQL keywords. -/
def upperL (s : List Char) : List Char := s.map Char.toUpper

/-- Python `str.lower()` restricted to the ASCII range used by the column names. -/
def lowerL (s : List Char) : List Char := s.map Char.toLower

/-- Python substring test `needle in hay`. -/
def containsSub (needle : List Char) : List Char → Bool
  | [] => needle.isEmpty
  | c :: cs => needle.isPrefixOf (c :: cs) || containsSub needle cs

/-- The denylist of `validate_sql_query` (`sql_engine.py`), in source order. -/
def dangerous_keywords : List String :=
  ["DROP", "DELETE", "UPDATE", "INSERT", "ALTER", "CREATE", "TRUNCATE"]

/-- The first denylisted keyword occurring in the uppercased query, if any
(the `for keyword in dangerous_keywords` loop of `validate_sql_query`). -/
def firstDangerous (qu : List Char) : Option String :=
  dangerous_keywords.find? (fun k => containsSub k.data qu)

/-- Embedding of `validate_sql_query` from `src/database/sql_engine.py`: returns the pair
`(ok, message)` exactly as the Python function does. -/
def validate_sql_query (query : String) : Bool × String :=
  let q := stripL query.data
  let qu := upperL q
  match firstDangerous qu with
  | some k => (false, "Query contains dangerous keyword: " ++ k)
  | none =>
      if ("SELECT".data.isPrefixOf qu) then
        if (rstripL q).getLast? = some ';' then
          (true, "Query validation passed")
        else
          (false, "Query should end with a semicolon (;)")
      else
        (false, "Only SELECT queries are allowed in learning mode")

/-- A result row: a Python dict modelled as an association list from column
name to the (already stringified) cell value, in key-insertion order. -/
abbrev Row := List (String × String)

/-- Python `str(row.get(col, ''))`: the stringified cell value, or the empty
string when the key is missing from the row. -/
def pyGet (r : Row) (col : String) : String :=
  match r.lookup col with
  | some v => v
  | none => ""

/-- Maximum of a list of naturals (Python `max(...)` over a generator; the
formatter only ever applies it to a nonempty list of lengths). -/
def listMax (l : List Nat) : Nat := l.foldr max 0

/-- Display width `col_widths[col]` in `display_query_results`: the larger of the column
name's length and the longest stringified value among the first 10 rows,
capped at 20. -/
def colWidth (results : List Row) (col : String) : Nat :=
  min (max col.length (listMax ((results.take 10).map (fun r => (pyGet r col).length)))) 20

/-- `"-" * n` and `"=" * n`: a string of `n` copies of `c`. -/
def repChar (c : Char) (n : Nat) : String := String.mk (List.replicate n c)

/-- The f-string field `f"{s:<{w}}"`: left-justify `s` in a field of minimum
width `w`; a string longer than `w` is left untouched, never truncated. -/
def ljust (s : String) (w : Nat) : String := s ++ repChar ' ' (w - s.length)

/-- Python `sep.join(items)`. -/
def joinSep (sep : String) : List String → String
  | [] => ""
  | [x] => x
  | x :: y :: xs => x ++ sep ++ joinSep sep (y :: xs)

/-- The header line of the rendered table (without its trailing newline). -/
def headerLine (results : List Row) (columns : List String) : String :=
  joinSep (" | ") (columns.map (fun col => ljust col (colWidth results col)))

/-- One rendered data line (without its trailing newline). -/
def rowLine (results : List Row) (columns : List String) (r : Row) : String :=
  joinSep (" | ") (columns.map (fun col => ljust (pyGet r col) (colWidth results col)))

/-- Recognizer for the exponent-or-end tail of a Python float literal. -/
def expPart : List Char → Bool
  | [] => true
  | c :: r =>
      (c = 'e' || c = 'E') &&
      (let r2 := match r with
        | '+' :: t => t
        | '-' :: t => t
        | t => t
       let es := r2.takeWhile Char.isDigit
       decide (0 < es.length) && decide (r2.drop es.length = []))

/-- Recognizer for an unsigned Python float literal body: digits with an
optional fractional part, or a leading-dot fraction, followed by an optional
exponent, consuming the whole input. -/
def floatBody (s : List Char) : Bool :=
  let ds := s.takeWhile Char.isDigit
  match s.drop ds.length with
  | '.' :: r2 =>
      let fs := r2.takeWhile Char.isDigit
      decide (0 < ds.length + fs.length) && expPart (r2.drop fs.length)
  | r2 => decide (0 < ds.length) && expPart r2

/-- Whether the Python builtin `float(s)` succeeds on the string `s`: optional
surrounding whitespace, an optional sign, then a float literal or one of the
special values `inf`, `infinity`, `nan` (case-insensitive).  This models the
acceptance of `float` as used by `add_result_analysis`; numeric-literal
underscores are not modelled. -/
def pyFloatParses (s : String) : Bool :=
  let t2 := match stripL s.data with
    | '+' :: r => r
    | '-' :: r => r
    | r => r
  (lowerL t2 == "inf".data) || (lowerL t2 == "infinity".data) ||
    (lowerL t2 == "nan".data) || floatBody t2

/-- The `numeric_cols` list of `add_result_analysis`: the columns whose value in the
first row parses as a Python float. -/
def numericCols (results : List Row) (columns : List String) : List String :=
  match results with
  | [] => []
  | r0 :: _ => columns.filter (fun col => pyFloatParses (pyGet r0 col))

/-- The `date_cols` list of `add_result_analysis`: the columns whose lowercased name
contains the substring "date" or "time". -/
def dateCols (columns : List String) : List String :=
  columns.filter (fun col =>
    containsSub ("date".data) (lowerL col.data) || containsSub ("time".data) (lowerL col.data))

/-- Embedding of `add_result_analysis` from `src/gui/sql_tutor.py`, modelled as the ordered
list of text chunks it inserts into the results widget. -/
def add_result_analysis (results : List Row) (columns : List String) : List String :=
  ["\n" ++ repChar '=' 50 ++ "\n",
   "📈 Result Analysis:\n\n",
   "• Total rows: " ++ toString results.length ++ "\n",
   "• Columns: " ++ toString columns.length ++ "\n",
   "• Column names: " ++ joinSep (", ") columns ++ "\n\n"]
  ++
  match results with
  | [] => []
  | _ :: _ =>
      ["💡 Learning Notes:\n"]
      ++ (if numericCols results columns = [] then [] else
           ["• Numeric columns detected: " ++ joinSep (", ") (numericCols results columns) ++ "\n",
            "  Try using functions like SUM(), AVG(), MIN(), MAX() on these!\n"])
      ++ (if dateCols columns = [] then [] else
           ["• Date columns: " ++ joinSep (", ") (dateCols columns) ++ "\n",
            "  Try using date functions and ORDER BY for time-based analysis!\n"])
      ++ ["\n🎯 Try these next:\n"]
      ++ (if 1 < results.length then
           ["• Add WHERE clauses to filter specific data\n",
            "• Use ORDER BY to sort the results\n",
            "• Try GROUP BY for data aggregation\n"]
          else [])

/-- An apostrophe character, kept out of string literals. -/
def apos : String := String.mk [Char.ofNat 39]

/-- The three hint chunks shown for an empty result set. -/
def emptyHints : List String :=
  ["💡 This might mean:\n",
   "   • The query conditions didn" ++ apos ++ "t match any data\n",
   "   • The table is empty\n",
   "   • There might be a logical error in the query\n"]

/-- Embedding of `display_query_results` from `src/gui/sql_tutor.py`, modelled as the
ordered list of text chunks it inserts into the results widget. -/
def display_query_results (query : String) (results : List Row) : List String :=
  ["📝 Executed Query:\n" ++ query ++ "\n\n"]
  ++
  match results with
  | [] => ["📊 Results: No rows returned.\n\n"] ++ emptyHints
  | r0 :: _ =>
      let columns := r0.map Prod.fst
      ["📊 Results: " ++ toString results.length ++ " row(s) returned\n\n"]
      ++ [headerLine results columns ++ "\n",
          repChar '-' (headerLine results columns).length ++ "\n"]
      ++ (results.take 100).map (fun r => rowLine results columns r ++ "\n")
      ++ (if 100 < results.length then
            ["\n... and " ++ toString (results.length - 100) ++ " more rows\n"]
          else [])
      ++ add_result_analysis results columns

example : validate_sql_query ("SELECT * FROM employees;") = (true, "Query validation passed") := by decide

example : validate_sql_query ("select * from updates;") =
    (false, "Query contains dangerous keyword: UPDATE") := by decide

example : validate_sql_query ("SELECT * FROM employees") =
    (false, "Query should end with a semicolon (;)") := by decide

example : validate_sql_query ("") =
    (false, "Only SELECT queries are allowed in learning mode") := by decide

example : validate_sql_query ("  DROP TABLE t; DELETE FROM u;") =
    (false, "Query contains dangerous keyword: DROP") := by decide

example :
    display_query_results ("SELECT 1;") [] =
      ["📝 Executed Query:\nSELECT 1;\n\n", "📊 Results: No rows returned.\n\n"]
        ++ emptyHints := by decide

example :
    rowLine [[("a", "xy")]] ["a"] [("a", "xy")] = "xy" := by decide

example :
    headerLine [[("id", "1"), ("name", "Bob")]] ["id", "name"] = "id | name" := by decide

/-! ### Helper lemmas -/

theorem dropWhile_dropWhile_self {α} (p : α → Bool) (l : List α) :
    (l.dropWhile p).dropWhile p = l.dropWhile p := by
  induction l with
  | nil => rfl
  | cons a t ih =>
      by_cases h : p a = true
      · simp [List.dropWhile_cons, h, ih]
      · simp [List.dropWhile_cons, h]

theorem rstripL_rstripL (s : List Char) : rstripL (rstripL s) = rstripL s := by
  simp [rstripL, List.reverse_reverse, dropWhile_dropWhile_self]

theorem rstripL_stripL (s : List Char) : rstripL (stripL s) = stripL s := by
  simp [stripL, rstripL_rstripL]

theorem find?_append_first {α} (p : α → Bool) (k : α) (l1 l2 : List α)
    (h1 : ∀ x ∈ l1, p x = false) (hk : p k = true) :
    (l1 ++ k :: l2).find? p = some k := by
  induction l1 with
  | nil => simp [List.find?_cons, hk]
  | cons a t ih =>
      have ha : p a = false := h1 a (by simp)
      simpa [List.find?_cons, ha] using ih (fun x hx => h1 x (by simp [hx]))

/-- The verdict of `validate_sql_query`, unfolded into its decision structure. -/
theorem validate_eq (q : String) :
    validate_sql_query q =
      match firstDangerous (upperL (stripL q.data)) with
      | some k => (false, "Query contains dangerous keyword: " ++ k)
      | none =>
          if ("SELECT".data.isPrefixOf (upperL (stripL q.data))) then
            if (rstripL (stripL q.data)).getLast? = some ';' then
              (true, "Query validation passed")
            else
              (false, "Query should end with a semicolon (;)")
          else
            (false, "Only SELECT queries are allowed in learning mode") := rfl

/-! ### Claim theorems -/

/-- C1: whenever the trimmed, uppercased query contains a denylisted keyword,
`validate_sql_query` rejects it citing the first matching keyword in denylist
order (any keywords earlier in the list do not occur), regardless of the
SELECT-prefix and semicolon conditions. -/
theorem validate_dangerous_keyword_first_match (q k : String) (l1 l2 : List String)
    (hsplit : dangerous_keywords = l1 ++ k :: l2)
    (hbefore : ∀ p ∈ l1, containsSub p.data (upperL (stripL q.data)) = false)
    (hk : containsSub k.data (upperL (stripL q.data)) = true) :
    validate_sql_query q = (false, "Query contains dangerous keyword: " ++ k) := by
  have hfind : firstDangerous (upperL (stripL q.data)) = some k := by
    rw [firstDangerous, hsplit]
    exact find?_append_first _ k l1 l2 hbefore hk
  rw [validate_eq, hfind]

theorem validate_dangerous_keyword_first_match_witness :
    validate_sql_query ("  delete from drops;") =
      (false, "Query contains dangerous keyword: DROP") :=
  validate_dangerous_keyword_first_match ("  delete from drops;") "DROP" []
    ["DELETE", "UPDATE", "INSERT", "ALTER", "CREATE", "TRUNCATE"]
    (by decide) (by decide) (by decide)

/-- C2: `validate_sql_query` allows a query exactly when the trimmed query's
uppercased form contains no denylisted keyword, starts with SELECT, and the
trimmed query ends with a semicolon; with no keyword match, a missing SELECT
prefix yields the learning-mode rejection, and a missing final semicolon
yields the semicolon rejection. -/
theorem validate_allowed_iff (q : String) :
    ((validate_sql_query q).1 = true ↔
      ((∀ k ∈ dangerous_keywords, containsSub k.data (upperL (stripL q.data)) = false) ∧
       "SELECT".data.isPrefixOf (upperL (stripL q.data)) = true ∧
       (stripL q.data).getLast? = some ';'))
    ∧
    ((∀ k ∈ dangerous_keywords, containsSub k.data (upperL (stripL q.data)) = false) →
      "SELECT".data.isPrefixOf (upperL (stripL q.data)) = false →
      validate_sql_query q = (false, "Only SELECT queries are allowed in learning mode"))
    ∧
    ((∀ k ∈ dangerous_keywords, containsSub k.data (upperL (stripL q.data)) = false) →
      "SELECT".data.isPrefixOf (upperL (stripL q.data)) = true →
      (stripL q.data).getLast? ≠ some ';' →
      validate_sql_query q = (false, "Query should end with a semicolon (;)")) := by
  rw [validate_eq q, rstripL_stripL]
  rcases hfind : firstDangerous (upperL (stripL q.data)) with _ | k
  · rw [firstDangerous, List.find?_eq_none] at hfind
    refine ⟨?_, ?_, ?_⟩
    · by_cases hsel : "SELECT".data.isPrefixOf (upperL (stripL q.data)) = true
      · by_cases hsemi : (stripL q.data).getLast? = some ';'
        · simp_all
        · simp_all
      · simp_all
    · intro _ hsel
      simp [hsel]
    · intro _ hsel hsemi
      simp [hsel, hsemi]
  · rw [firstDangerous] at hfind
    have hkmem : k ∈ dangerous_keywords := List.mem_of_find?_eq_some hfind
    have hktrue : containsSub k.data (upperL (stripL q.data)) = true := by
      simpa using List.find?_some hfind
    refine ⟨?_, ?_, ?_⟩
    · constructor
      · intro hcontra
        simp at hcontra
      · rintro ⟨hnone, -⟩
        exact absurd hktrue (by simp [hnone k hkmem])
    · intro hnone
      exact absurd hktrue (by simp [hnone k hkmem])
    · intro hnone
      exact absurd hktrue (by simp [hnone k hkmem])

theorem validate_allowed_iff_witness :
    (validate_sql_query ("SELECT * FROM employees;")).1 = true ∧
    validate_sql_query ("PRAGMA foo;") =
      (false, "Only SELECT queries are allowed in learning mode") ∧
    validate_sql_query ("SELECT 1") = (false, "Query should end with a semicolon (;)") :=
  ⟨(validate_allowed_iff ("SELECT * FROM employees;")).1.mpr ⟨by decide, by decide, by decide⟩,
   (validate_allowed_iff ("PRAGMA foo;")).2.1 (by decide) (by decide),
   (validate_allowed_iff ("SELECT 1")).2.2 (by decide) (by decide) (by decide)⟩

/-- C9: `validate_sql_query` is a total function — every input string,
including the empty string and a lone semicolon, yields a verdict — and both
edge cases are rejected by the SELECT-prefix check. -/
theorem validate_total_edge_cases :
    validate_sql_query ("") = (false, "Only SELECT queries are allowed in learning mode") ∧
    validate_sql_query (";") = (false, "Only SELECT queries are allowed in learning mode") ∧
    ∀ q : String, (validate_sql_query q).1 = true ∨ (validate_sql_query q).1 = false := by
  refine ⟨by decide, by decide, fun q => ?_⟩
  cases h : (validate_sql_query q).1
  · right; rfl
  · left; rfl

theorem repChar_length (c : Char) (n : Nat) : (repChar c n).length = n := by
  show (List.replicate n c).length = n
  exact List.length_replicate n c

theorem ljust_length (s : String) (w : Nat) : (ljust s w).length = max w s.length := by
  rw [ljust, String.length_append, repChar_length]
  omega

theorem joinSep_length_congr {α} (sep : String) (f g : α → String) :
    ∀ l : List α, (∀ x ∈ l, (f x).length = (g x).length) →
      (joinSep sep (l.map f)).length = (joinSep sep (l.map g)).length
  | [], _ => rfl
  | [x], h => by simp [joinSep, h x (by simp)]
  | x :: y :: xs, h => by
      have hx := h x (by simp)
      have ht := joinSep_length_congr sep f g (y :: xs) (fun z hz => h z (by simp [hz]))
      simp only [List.map_cons, joinSep, String.length_append] at *
      omega

/-- Unfolding of `display_query_results` on a nonempty result set into its chunks. -/
theorem display_cons_eq (q : String) (r0 : Row) (rest : List Row) :
    display_query_results q (r0 :: rest) =
      ["📝 Executed Query:\n" ++ q ++ "\n\n",
       "📊 Results: " ++ toString (r0 :: rest).length ++ " row(s) returned\n\n",
       headerLine (r0 :: rest) (r0.map Prod.fst) ++ "\n",
       repChar '-' (headerLine (r0 :: rest) (r0.map Prod.fst)).length ++ "\n"]
      ++ ((r0 :: rest).take 100).map (fun r => rowLine (r0 :: rest) (r0.map Prod.fst) r ++ "\n")
      ++ (if 100 < (r0 :: rest).length then
            ["\n... and " ++ toString ((r0 :: rest).length - 100) ++ " more rows\n"]
          else [])
      ++ add_result_analysis (r0 :: rest) (r0.map Prod.fst) := rfl

/-- C3: the Result Formatter is total — every query and every result set,
uniform or not, yields a nonempty report — and a cell whose key is missing
from a row is rendered as the empty string, so its padded cell coincides with
the padding of the empty string. -/
theorem formatter_total_missing_key (query : String) (results : List Row) (r : Row)
    (col : String) (h : r.lookup col = none) :
    display_query_results query results ≠ [] ∧
    pyGet r col = "" ∧
    ∀ w, ljust (pyGet r col) w = ljust ("") w := by
  refine ⟨?_, by simp [pyGet, h], fun w => by simp [pyGet, h]⟩
  cases results <;> simp [display_query_results]

theorem formatter_total_missing_key_witness :
    display_query_results ("SELECT 1;") [] ≠ [] ∧
    pyGet [("a", "1")] "b" = "" ∧
    ljust (pyGet [("a", "1")] "b") 5 = ljust ("") 5 :=
  ⟨(formatter_total_missing_key ("SELECT 1;") [] [("a", "1")] "b" (by decide)).1,
   (formatter_total_missing_key ("SELECT 1;") [] [("a", "1")] "b" (by decide)).2.1,
   (formatter_total_missing_key ("SELECT 1;") [] [("a", "1")] "b" (by decide)).2.2 5⟩

/-- C4 (counterexample): no chunk of the empty-result report contains the
claimed row-count line "0 row(s) returned"; the code emits "No rows
returned." instead. -/
theorem display_empty_no_zero_rows_line :
    (display_query_results ("SELECT 1;") []).all
      (fun c => !(containsSub ("0 row(s) returned".data) (c.data))) = true := by decide

/-- C4 (amended): for every query, the empty-result report consists of exactly
the echoed query, the row-count line "No rows returned.", and the three fixed
diagnostic hint lines — no header line, no data lines, no analysis section. -/
theorem display_empty_results (q : String) :
    display_query_results q [] =
      ["📝 Executed Query:\n" ++ q ++ "\n\n",
       "📊 Results: No rows returned.\n\n",
       "💡 This might mean:\n",
       "   • The query conditions didn" ++ apos ++ "t match any data\n",
       "   • The table is empty\n",
       "   • There might be a logical error in the query\n"] := rfl

/-- C5: for a nonempty result set the report is the echo, count, header and
separator chunks, then one data line per row of the first min(100, N) rows in
input order, then the "... and N-100 more rows" line exactly when N > 100,
then the analysis section. -/
theorem display_data_lines (q : String) (r0 : Row) (rest : List Row) :
    display_query_results q (r0 :: rest) =
      ["📝 Executed Query:\n" ++ q ++ "\n\n",
       "📊 Results: " ++ toString (r0 :: rest).length ++ " row(s) returned\n\n",
       headerLine (r0 :: rest) (r0.map Prod.fst) ++ "\n",
       repChar '-' (headerLine (r0 :: rest) (r0.map Prod.fst)).length ++ "\n"]
      ++ ((r0 :: rest).take 100).map (fun r => rowLine (r0 :: rest) (r0.map Prod.fst) r ++ "\n")
      ++ (if 100 < (r0 :: rest).length then
            ["\n... and " ++ toString ((r0 :: rest).length - 100) ++ " more rows\n"]
          else [])
      ++ add_result_analysis (r0 :: rest) (r0.map Prod.fst)
    ∧
    (((r0 :: rest).take 100).map
        (fun r => rowLine (r0 :: rest) (r0.map Prod.fst) r ++ "\n")).length
      = min 100 (r0 :: rest).length
    ∧
    (∀ i, i < 100 →
      (((r0 :: rest).take 100).map
          (fun r => rowLine (r0 :: rest) (r0.map Prod.fst) r ++ "\n"))[i]? =
        ((r0 :: rest)[i]?).map (fun r => rowLine (r0 :: rest) (r0.map Prod.fst) r ++ "\n"))
    ∧
    ((r0 :: rest).length ≤ 100 →
      (if 100 < (r0 :: rest).length then
          ["\n... and " ++ toString ((r0 :: rest).length - 100) ++ " more rows\n"]
        else []) = ([] : List String)) := by
  refine ⟨display_cons_eq q r0 rest, ?_, ?_, ?_⟩
  · simp [List.length_take]
    omega
  · intro i hi
    rw [List.getElem?_map, List.getElem?_take_of_lt hi]
  · intro h
    have hn : ¬ (100 < (r0 :: rest).length) := by omega
    rw [if_neg hn]

theorem display_data_lines_witness :
    ((([("a", "1")] :: ([] : List Row)).take 100).map
        (fun r => rowLine ([("a", "1")] :: ([] : List Row)) ([("a", "1")].map Prod.fst) r
          ++ "\n")).length
      = min 100 ([("a", "1")] :: ([] : List Row)).length :=
  (display_data_lines ("q") [("a", "1")] []).2.1

/-- C6: for a nonempty result set, each column's display width is
min(20, max(name length, longest stringified value over the first 10 rows)),
and rows beyond the tenth never influence any column width. -/
theorem colWidth_first_ten_rows (results : List Row) (col : String) (_h : results ≠ []) :
    colWidth results col =
      min 20 (max col.length
        (listMax ((results.take 10).map (fun r => (pyGet r col).length)))) ∧
    ∀ results' : List Row, results.take 10 = results'.take 10 →
      colWidth results col = colWidth results' col := by
  constructor
  · rw [colWidth, Nat.min_comm]
  · intro results' hsame
    rw [colWidth, colWidth, hsame]

theorem colWidth_first_ten_rows_witness :
    colWidth [[("a", "1")]] "a" =
      min 20 (max ("a" : String).length
        (listMax ((([[("a", "1")]] : List Row ).take 10).map
          (fun r => (pyGet r ("a")).length)))) :=
  (colWidth_first_ten_rows [[("a", "1")]] "a" (by decide)).1

/-- C7 (counterexample): with one column "a" and a single 25-character value,
the computed width is 20 but the rendered cell keeps all 25 characters — no
truncation happens — so the data line of the report is longer than its header
line. -/
theorem rendered_cell_exceeds_width :
    colWidth [[("a", "aaaaaaaaaaaaaaaaaaaaaaaaa")]] "a" = 20 ∧
    (headerLine [[("a", "aaaaaaaaaaaaaaaaaaaaaaaaa")]] ["a"]).length = 20 ∧
    (rowLine [[("a", "aaaaaaaaaaaaaaaaaaaaaaaaa")]] ["a"]
        [("a", "aaaaaaaaaaaaaaaaaaaaaaaaa")]).length = 25 ∧
    (rowLine [[("a", "aaaaaaaaaaaaaaaaaaaaaaaaa")]] ["a"]
          [("a", "aaaaaaaaaaaaaaaaaaaaaaaaa")] ++ "\n")
      ∈ display_query_results ("q") [[("a", "aaaaaaaaaaaaaaaaaaaaaaaaa")]] ∧
    (rowLine [[("a", "aaaaaaaaaaaaaaaaaaaaaaaaa")]] ["a"]
        [("a", "aaaaaaaaaaaaaaaaaaaaaaaaa")]).length ≠
      (headerLine [[("a", "aaaaaaaaaaaaaaaaaaaaaaaaa")]] ["a"]).length := by decide

/-- C7 (amended): a rendered cell occupies exactly max(width, cell length)
characters — left-justified, padded when shorter, never truncated — the
separator line is a dash per header character, and whenever every cell value
and column name fits within its column width, each data line has the same
length as the header line. -/
theorem cell_padding_spec (results : List Row) (columns : List String) (r : Row) :
    (∀ s w, (ljust s w).length = max w s.length) ∧
    (repChar '-' (headerLine results columns).length).length
      = (headerLine results columns).length ∧
    ((∀ col ∈ columns, (pyGet r col).length ≤ colWidth results col ∧
        col.length ≤ colWidth results col) →
      (rowLine results columns r).length = (headerLine results columns).length) := by
  refine ⟨ljust_length, repChar_length _ _, fun hfit => ?_⟩
  rw [rowLine, headerLine]
  refine joinSep_length_congr (" | ") _ _ columns (fun col hcol => ?_)
  rw [ljust_length, ljust_length]
  rcases hfit col hcol with ⟨h1, h2⟩
  omega

theorem cell_padding_spec_witness :
    (rowLine [[("id", "7")]] ["id"] [("id", "7")]).length =
      (headerLine [[("id", "7")]] ["id"]).length :=
  (cell_padding_spec [[("id", "7")]] ["id"] [("id", "7")]).2.2 (by decide)

/-- C8: a column is listed among the numeric columns exactly when its value in
the first row parses as a float; rows after the first never influence the
classification. -/
theorem numericCols_first_row_only (r0 : Row) (rest rest' : List Row)
    (columns : List String) (col : String) :
    (col ∈ numericCols (r0 :: rest) columns ↔
      col ∈ columns ∧ pyFloatParses (pyGet r0 col) = true) ∧
    numericCols (r0 :: rest) columns = numericCols (r0 :: rest') columns := by
  constructor
  · show col ∈ columns.filter (fun c => pyFloatParses (pyGet r0 c)) ↔ _
    rw [List.mem_filter]
  · rfl

theorem numericCols_first_row_only_witness :
    "x" ∈ numericCols [[("x", "42")], [("x", "abc")]] ["x"] :=
  (numericCols_first_row_only [("x", "42")] [[("x", "abc")]] [] ["x"] "x").1.mpr
    ⟨by decide, by decide⟩

example :
    numericCols [[("x", "abc")], [("x", "42")]] ["x"] = [] ∧
    numericCols [[("x", "42")], [("x", "abc")]] ["x"] = ["x"] := by decide

/-- C10: a column whose name contains "date" or "time" and whose first-row
value parses as a float is listed both among the numeric columns and among the
date columns, and the corresponding suggestion chunks both appear in the same
report. -/
theorem numeric_and_date_suggestions_independent (q : String) (r0 : Row)
    (rest : List Row) (col : String)
    (hcol : col ∈ r0.map Prod.fst)
    (hdate : (containsSub "date".data (lowerL col.data) ||
        containsSub "time".data (lowerL col.data)) = true)
    (hnum : pyFloatParses (pyGet r0 col) = true) :
    col ∈ numericCols (r0 :: rest) (r0.map Prod.fst) ∧
    col ∈ dateCols (r0.map Prod.fst) ∧
    ("• Numeric columns detected: " ++
        joinSep (", ") (numericCols (r0 :: rest) (r0.map Prod.fst)) ++ "\n")
      ∈ display_query_results q (r0 :: rest) ∧
    ("• Date columns: " ++ joinSep (", ") (dateCols (r0.map Prod.fst)) ++ "\n")
      ∈ display_query_results q (r0 :: rest) := by
  have hmemN : col ∈ numericCols (r0 :: rest) (r0.map Prod.fst) := by
    show col ∈ (r0.map Prod.fst).filter (fun c => pyFloatParses (pyGet r0 c))
    exact List.mem_filter.mpr ⟨hcol, hnum⟩
  have hmemD : col ∈ dateCols (r0.map Prod.fst) :=
    List.mem_filter.mpr ⟨hcol, hdate⟩
  have hneN : numericCols (r0 :: rest) (r0.map Prod.fst) ≠ [] := List.ne_nil_of_mem hmemN
  have hneD : dateCols (r0.map Prod.fst) ≠ [] := List.ne_nil_of_mem hmemD
  have hchunkN : ("• Numeric columns detected: " ++
      joinSep (", ") (numericCols (r0 :: rest) (r0.map Prod.fst)) ++ "\n")
      ∈ add_result_analysis (r0 :: rest) (r0.map Prod.fst) := by
    simp [add_result_analysis, hneN, hneD]
  have hchunkD : ("• Date columns: " ++ joinSep (", ") (dateCols (r0.map Prod.fst)) ++ "\n")
      ∈ add_result_analysis (r0 :: rest) (r0.map Prod.fst) := by
    simp [add_result_analysis, hneN, hneD]
  refine ⟨hmemN, hmemD, ?_, ?_⟩
  · rw [display_cons_eq]
    simp only [List.mem_append]
    tauto
  · rw [display_cons_eq]
    simp only [List.mem_append]
    tauto

theorem numeric_and_date_suggestions_independent_witness :
    "hire_date" ∈ numericCols [[("hire_date", "42")]]
      (([("hire_date", "42")] : Row).map Prod.fst) :=
  (numeric_and_date_suggestions_independent ("q") [("hire_date", "42")] [] "hire_date"
    (by decide) (by decide) (by decide)).1
